import Mathlib

/-!
Shallow embedding of the `sanctions_watch` crawler framework
(`src/sanctions_watch/...`), used to verify its specification.

Modelling conventions: Python strings are lists of characters
(`PyStr`); `None`-able values are `Option`; a raised exception is an
`Except.error` value; the float quality score is a rational number;
`datetime` values are calendar dates (the time components, always
midnight here, are dropped).
-/

namespace SanctionsWatch

/-- Python string: a list of characters. -/
abbrev PyStr := List Char

/-- The characters removed by Python `str.strip()` (ASCII whitespace). -/
def isPySpace (c : Char) : Bool :=
  c == ' ' || c == '\t' || c == '\n' || c == '\r' || c == '\x0b' || c == '\x0c'

/-- Python `str.strip()`: drop leading and trailing whitespace. -/
def pyStrip (s : PyStr) : PyStr :=
  List.rdropWhile isPySpace (List.dropWhile isPySpace s)

/-- Python `str.lower()` (ASCII case folding suffices for this model). -/
def pyLower (s : PyStr) : PyStr := s.map Char.toLower

/-- Python `str.upper()`. -/
def pyUpper (s : PyStr) : PyStr := s.map Char.toUpper

/-- Lean string literal to the Python-string model. -/
def lstr (s : String) : PyStr := s.data

/-- Python truthiness of a string: non-empty. -/
def pyTruthy (s : PyStr) : Bool := !s.isEmpty

/-- Python truthiness of an `Optional[str]`: present and non-empty. -/
def pyTruthyOpt (o : Option PyStr) : Bool :=
  match o with
  | none => false
  | some s => pyTruthy s

theorem pyStrip_nil : pyStrip ([] : PyStr) = [] := rfl

theorem pyStrip_eq_nil_iff (s : PyStr) :
    pyStrip s = [] ↔ ∀ c ∈ s, isPySpace c := by
  unfold pyStrip
  rw [List.rdropWhile_eq_nil_iff]
  constructor
  · intro h c hc
    have hsplit : s.takeWhile isPySpace ++ s.dropWhile isPySpace = s :=
      List.takeWhile_append_dropWhile isPySpace s
    rw [← hsplit] at hc
    rcases List.mem_append.mp hc with h1 | h2
    · exact List.mem_takeWhile_imp h1
    · exact h c h2
  · intro h c hc
    have hsplit : s.takeWhile isPySpace ++ s.dropWhile isPySpace = s :=
      List.takeWhile_append_dropWhile isPySpace s
    refine h c ?_
    rw [← hsplit]
    exact List.mem_append_right _ hc

theorem dropWhile_rdropWhile_dropWhile (p : Char → Bool) (s : List Char) :
    List.dropWhile p (List.rdropWhile p (List.dropWhile p s)) =
      List.rdropWhile p (List.dropWhile p s) := by
  rw [List.dropWhile_eq_self_iff]
  intro hl
  have hpre : List.rdropWhile p (List.dropWhile p s) <+: List.dropWhile p s :=
    List.rdropWhile_prefix p (List.dropWhile p s)
  have hlen : 0 < (List.dropWhile p s).length := lt_of_lt_of_le hl hpre.length_le
  have h0 := List.dropWhile_get_zero_not (p := p) s hlen
  have hget := hpre.get_eq (n := 0) hl
  rw [hget]
  exact h0

theorem pyStrip_idem (s : PyStr) : pyStrip (pyStrip s) = pyStrip s := by
  unfold pyStrip
  rw [dropWhile_rdropWhile_dropWhile, List.rdropWhile_idempotent]

/-! ## Canonical data model (`core/models.py`) -/

/-- `EntityType` enum (models.py:9-16). -/
inductive EntityType
  | person | entity | vessel | aircraft | organization | unknown
deriving DecidableEq, Repr

/-- `IdentifierType` enum (models.py:19-28). -/
inductive IdentifierType
  | passport | national_id | tax_id | registration_number
  | imo_number | call_sign | swift_bic | other
deriving DecidableEq, Repr

/-- `AddressType` enum (models.py:31-37). -/
inductive AddressType
  | residence | business | birth_place | registration | other
deriving DecidableEq, Repr

/-- `SanctionStatus` enum (models.py:40-45). -/
inductive SanctionStatus
  | active | inactive | delisted | pending
deriving DecidableEq, Repr

/-- A calendar date, the payload of a parsed `datetime` (always midnight). -/
structure PyDate where
  year : Nat
  month : Nat
  day : Nat
deriving DecidableEq, Repr

/-- `Address` (models.py:48-56). -/
structure Address where
  address_type : AddressType
  street : Option PyStr := none
  city : Option PyStr := none
  state_province : Option PyStr := none
  postal_code : Option PyStr := none
  country : Option PyStr := none
  full_address : Option PyStr := none
deriving DecidableEq

/-- `Identifier` (models.py:59-66). -/
structure Identifier where
  identifier_type : IdentifierType
  value : PyStr
  issuing_country : Option PyStr := none
deriving DecidableEq

/-- `EntityDates` (models.py:69-74). -/
structure EntityDates where
  birth_date : Option PyDate := none
  death_date : Option PyDate := none
  incorporation_date : Option PyDate := none
  dissolution_date : Option PyDate := none
deriving DecidableEq

/-- `SanctionProgram` (models.py:86-92). -/
structure SanctionProgram where
  name : PyStr
  authority : PyStr
  program_type : PyStr
  description : Option PyStr := none
  legal_basis : Option PyStr := none
deriving DecidableEq

/-- `SanctionEntity` (models.py:95-133); fields not touched by any verified
operation (timestamps, references, free-form extension data) are omitted. -/
structure SanctionEntity where
  id : PyStr
  name : PyStr
  alternative_names : List PyStr := []
  entity_type : EntityType
  source : PyStr
  source_id : Option PyStr := none
  sanction_status : SanctionStatus := .active
  sanctions_programs : List SanctionProgram := []
  addresses : List Address := []
  identifiers : List Identifier := []
  dates : Option EntityDates := none
  nationality : Option PyStr := none
  citizenship : List PyStr := []
  position : Option PyStr := none
  data_quality_score : Option ℚ := none
deriving DecidableEq

/-- `CrawlResult` (models.py:162-171); `crawl_timestamp` and the wall-clock
metadata are outside the pure model. -/
structure CrawlResult where
  source : PyStr
  entities : List SanctionEntity
  total_entities : Nat
  success_count : Nat
  error_count : Nat
  errors : List PyStr
deriving DecidableEq

namespace BaseCrawler

/-- `BaseCrawler._validate_entity` (core/base.py:112-129).  Each failed
check raises `DataValidationError`; the enclosing `except Exception`
converts any raise into `False`, so the operation is total.  Note the
`source` check is bare Python truthiness (`not entity.source`) with no
`.strip()`. -/
def validate_entity (e : SanctionEntity) : Bool :=
  if e.name = [] ∨ pyStrip e.name = [] then false
  else if e.id = [] ∨ pyStrip e.id = [] then false
  else if e.source = [] then false
  else true

/-- An exception value, carrying its display string (`str(e)`). -/
abbrev PyExc := PyStr

/-- The raw payload returned by `_fetch_data`: either a Python list of
raw records or one aggregate document (`_process_data`,
core/base.py:189, distinguishes the two with `isinstance(raw_data, list)`). -/
inductive RawData (α : Type)
  | pylist (items : List α)
  | single (item : α)

/-- `BaseCrawler._process_data` (core/base.py:187-201): parse each raw
record, catching any per-record parse exception (the failing record is
skipped with a warning); a non-list payload is parsed as one record.  The
abstract `_parse_entity` is a parameter, as in the abstract base class. -/
def process_data (parse : α → Except PyExc SanctionEntity) :
    RawData α → List SanctionEntity
  | .pylist items => items.filterMap (fun i => (parse i).toOption)
  | .single item => ((parse item).toOption).toList

/-- The `try` block of `crawl()` (core/base.py:139-152): create the session
if absent, fetch the raw data, then run every parsed entity through the
validator, accumulating valid entities and validation-error strings.
Exceptions from session creation or fetch propagate out of the block. -/
def crawl_try (sessionOpen : Bool) (create_session : Except PyExc Unit)
    (fetch_data : Except PyExc (RawData α))
    (parse : α → Except PyExc SanctionEntity) :
    Except PyExc (List SanctionEntity × List PyStr) := do
  if !sessionOpen then
    let _ ← create_session
  let raw ← fetch_data
  return (process_data parse raw).foldl
    (fun acc e =>
      if BaseCrawler.validate_entity e then (acc.1 ++ [e], acc.2)
      else (acc.1, acc.2 ++ [lstr "Validation failed for entity: " ++ e.id]))
    ([], [])

/-- The error string built by the `except Exception` clause of `crawl()`
(core/base.py:155): `f"Crawl failed for ...source...: ...str(e)..."`. -/
def crawl_fail_msg (source : PyStr) (e : PyExc) : PyStr :=
  lstr "Crawl failed for " ++ source ++ lstr ": " ++ e

/-- `BaseCrawler.crawl` (core/base.py:131-185).  The `try` block is wrapped
in `except Exception`, which appends the failure message to the error
list, and the `finally` block assembles and returns the `CrawlResult`, so
`crawl` always returns normally (the `Except.error` constructor is never
produced).  The second component is the session state when `crawl`
returns: `crawl` creates a session when none exists (base.py:141-142) and
never invokes `_close_session`, so the session stays open. -/
def crawl (sessionOpen : Bool) (create_session : Except PyExc Unit)
    (fetch_data : Except PyExc (RawData α))
    (parse : α → Except PyExc SanctionEntity) (source : PyStr) :
    Except PyExc CrawlResult × Bool :=
  let sessionAfter : Bool := sessionOpen || create_session.isOk
  let acc :=
    match crawl_try sessionOpen create_session fetch_data parse with
    | .ok r => r
    | .error e => ([], [crawl_fail_msg source e])
  (.ok { source := source
         entities := acc.1
         total_entities := acc.1.length
         success_count := acc.1.length
         error_count := acc.2.length
         errors := acc.2 },
   sessionAfter)

/-- `BaseCrawler._close_session` (core/base.py:56-60): awaits
`session.close()` and sets the session attribute to `None`.  Only
`__aexit__` (base.py:36-38) calls it. -/
def close_session (_sessionOpen : Bool) : Bool := false

/-! ## Retry model for `_make_request` (`core/base.py:74-100`) -/

/-- The exceptions that one attempt of `_make_request` can raise.
`clientResponse` is the `aiohttp.ClientResponseError` raised by
`response.raise_for_status()` — a subclass of `aiohttp.ClientError`;
`clientNetwork` is a network-level `aiohttp.ClientError`; `crawlerError`
is the `CrawlerError` raised when no session exists; `rateLimit` is
`RateLimitError` (a `CrawlerError` subclass, not an `aiohttp` error). -/
inductive ReqError
  | rateLimit
  | clientResponse (status : Nat)
  | clientNetwork
  | crawlerError
deriving DecidableEq, Repr

/-- The tenacity predicate `retry_if_exception_type((aiohttp.ClientError,
RateLimitError))` (core/base.py:77): both `ClientResponseError` (raised
for any status >= 400 other than 429) and network errors are instances of
`aiohttp.ClientError`, so they match; `CrawlerError` matches neither. -/
def is_retryable : ReqError → Bool
  | .rateLimit => true
  | .clientResponse _ => true
  | .clientNetwork => true
  | .crawlerError => false

/-- What the transport yields on one attempt: a network-level failure or a
response with an HTTP status code. -/
inductive AttemptOutcome
  | netError
  | status (code : Nat)
deriving DecidableEq, Repr

/-- One attempt of the body of `_make_request` (core/base.py:79-100): no
session raises `CrawlerError`; a network failure raises
`aiohttp.ClientError` (logged and re-raised by the except clause); status
429 raises `RateLimitError`; any other status >= 400 raises through
`response.raise_for_status()`; otherwise the response is returned. -/
def request_once (sessionOpen : Bool) (o : AttemptOutcome) : Except ReqError Nat :=
  if !sessionOpen then .error .crawlerError
  else
    match o with
    | .netError => .error .clientNetwork
    | .status code =>
      if code = 429 then .error .rateLimit
      else if 400 ≤ code then .error (.clientResponse code)
      else .ok code

/-- The tenacity retry loop: run attempt number `attempt` (attempts are
numbered from 1; `f k` is the outcome of attempt `k`); on a retryable
exception with retries remaining, back off and try again, else stop.  The
pair returned is the final outcome and the number of attempts performed.
(On exhaustion tenacity raises a `RetryError` wrapping the last attempt;
the model reports the wrapped exception.) -/
def retry_run (f : Nat → Except ReqError Nat) :
    Nat → Nat → Except ReqError Nat × Nat
  | attempt, remaining =>
    match f attempt, remaining with
    | .ok v, _ => (.ok v, attempt)
    | .error e, 0 => (.error e, attempt)
    | .error e, r + 1 =>
      if is_retryable e then retry_run f (attempt + 1) r
      else (.error e, attempt)

/-- `BaseCrawler._make_request` (core/base.py:74-100): the request body
under `@retry(stop=stop_after_attempt(3), wait=wait_exponential(...),
retry=retry_if_exception_type((aiohttp.ClientError, RateLimitError)))` —
at most 3 attempts, i.e. the first attempt plus up to 2 retries. -/
def make_request (sessionOpen : Bool) (outcomes : Nat → AttemptOutcome) :
    Except ReqError Nat × Nat :=
  retry_run (fun k => request_once sessionOpen (outcomes k)) 1 2

end BaseCrawler

/-! ## Post-processing (`processors/deduplicator.py`, `processors/enricher.py`) -/

/-- The deduplication key `f"...e.source...:...e.name.lower()..."`
(deduplicator.py:11). -/
def dedup_key (e : SanctionEntity) : PyStr :=
  e.source ++ lstr ":" ++ pyLower e.name

/-- The loop of `deduplicate_entities` (deduplicator.py:10-14), with the
`seen` dict modelled by the list of keys inserted so far (only membership
is consulted). -/
def dedup_go (seen : List PyStr) : List SanctionEntity → List SanctionEntity
  | [] => []
  | e :: rest =>
    if dedup_key e ∈ seen then dedup_go seen rest
    else e :: dedup_go (dedup_key e :: seen) rest

/-- `deduplicate_entities` (deduplicator.py:6-15). -/
def deduplicate_entities (entities : List SanctionEntity) : List SanctionEntity :=
  dedup_go [] entities

/-- Deduplication as the specification words it: the first occurrence of
each key is kept, every later entity with the same key is dropped. -/
def spec_first_occurrence : List SanctionEntity → List SanctionEntity
  | [] => []
  | e :: rest =>
    e :: spec_first_occurrence (rest.filter (fun x => decide (dedup_key x ≠ dedup_key e)))
termination_by l => l.length
decreasing_by
  simp only [List.length_cons]
  exact Nat.lt_succ_of_le (List.length_filter_le _ _)

/-- Python `round(x, 2)`: round to two decimal places.  (The scores
reachable in `enrich_entities` are exact multiples of 1/5, on which
binary-float rounding agrees with exact rational rounding, and no
half-way tie arises.) -/
def round2 (q : ℚ) : ℚ := ((round (q * 100) : ℤ) : ℚ) / 100

/-- The placeholder program attached by `enrich_entities`
(enricher.py:11). -/
def placeholder_program (source : PyStr) : SanctionProgram :=
  { name := lstr "Unknown Program"
    authority := pyUpper source
    program_type := lstr "general" }

/-- `enrich_entities` (enricher.py:6-19) on one entity: attach the
placeholder program when the program list is empty (via
`add_sanction_program`, which appends), then set
`data_quality_score = round(min(score, 1.0), 2)` where `score` adds 0.4
for a non-empty address list, 0.4 for a non-empty identifier list and
0.2 for a non-empty alternative-name list. -/
def enrich_one (e : SanctionEntity) : SanctionEntity :=
  let programs :=
    if e.sanctions_programs.isEmpty
    then e.sanctions_programs ++ [placeholder_program e.source]
    else e.sanctions_programs
  let score : ℚ :=
    (0 : ℚ)
    + (if e.addresses.isEmpty then 0 else 0.4)
    + (if e.identifiers.isEmpty then 0 else 0.4)
    + (if e.alternative_names.isEmpty then 0 else 0.2)
  { e with sanctions_programs := programs
           data_quality_score := some (round2 (min score 1)) }

/-- `enrich_entities` (enricher.py:6-19): every entity of the input list
is enriched in place and collected in order. -/
def enrich_entities (entities : List SanctionEntity) : List SanctionEntity :=
  entities.map enrich_one

/-! ## `strptime` model

Each crawler's `_parse_date` tries a fixed list of `datetime.strptime`
formats.  CPython's `_strptime` compiles a format into a regular
expression — `%Y` into four digits, `%d` into `3[01]|[12]\d|0[1-9]|[1-9]`,
`%m` into `1[0-2]|0[1-9]|[1-9]`, `%b` into the abbreviated month names
(case-insensitively), whitespace into a whitespace run — which must match
the whole input, with the usual backtracking; missing fields default to
year 1900, month 1, day 1, and the final `datetime(...)` construction
rejects a day beyond the month's length.  The matchers below return every
candidate parse in backtracking order. -/

/-- Partially assembled result with CPython's strptime defaults. -/
structure TimeAcc where
  year : Nat := 1900
  month : Nat := 1
  day : Nat := 1
deriving DecidableEq, Repr

/-- The format directives used by the four crawlers. -/
inductive Directive
  | year4
  | monthNum
  | dayNum
  | monthAbbr
  | lit (c : Char)
  | blank
deriving DecidableEq, Repr

def digitVal (c : Char) : Nat := c.toNat - '0'.toNat

/-- A digit 1-9. -/
def isDigit19 (c : Char) : Bool := c.isDigit && c != '0'

/-- `%Y`: exactly four digits. -/
def matchYear : List Char → List (Nat × List Char)
  | a :: b :: c :: d :: rest =>
    if a.isDigit && b.isDigit && c.isDigit && d.isDigit then
      [(((digitVal a * 10 + digitVal b) * 10 + digitVal c) * 10 + digitVal d, rest)]
    else []
  | _ => []

/-- `%d`: the regex alternatives `3[01]`, `[12]\d`, `0[1-9]`, `[1-9]` in
backtracking order. -/
def matchDay (s : List Char) : List (Nat × List Char) :=
  (match s with
   | '3' :: b :: rest =>
     if b = '0' || b = '1' then [(30 + digitVal b, rest)] else []
   | _ => []) ++
  (match s with
   | a :: b :: rest =>
     if (a = '1' || a = '2') && b.isDigit then
       [(digitVal a * 10 + digitVal b, rest)]
     else []
   | _ => []) ++
  (match s with
   | '0' :: b :: rest => if isDigit19 b then [(digitVal b, rest)] else []
   | _ => []) ++
  (match s with
   | a :: rest => if isDigit19 a then [(digitVal a, rest)] else []
   | _ => [])

/-- `%m`: the regex alternatives `1[0-2]`, `0[1-9]`, `[1-9]` in
backtracking order. -/
def matchMonthNum (s : List Char) : List (Nat × List Char) :=
  (match s with
   | '1' :: b :: rest =>
     if b = '0' || b = '1' || b = '2' then [(10 + digitVal b, rest)] else []
   | _ => []) ++
  (match s with
   | '0' :: b :: rest => if isDigit19 b then [(digitVal b, rest)] else []
   | _ => []) ++
  (match s with
   | a :: rest => if isDigit19 a then [(digitVal a, rest)] else []
   | _ => [])

def monthAbbrs : List (PyStr × Nat) :=
  [(lstr "jan", 1), (lstr "feb", 2), (lstr "mar", 3), (lstr "apr", 4),
   (lstr "may", 5), (lstr "jun", 6), (lstr "jul", 7), (lstr "aug", 8),
   (lstr "sep", 9), (lstr "oct", 10), (lstr "nov", 11), (lstr "dec", 12)]

/-- `%b`: an abbreviated month name, case-insensitive. -/
def matchMonthName (s : List Char) : List (Nat × List Char) :=
  match s with
  | a :: b :: c :: rest =>
    monthAbbrs.filterMap
      (fun p => if pyLower [a, b, c] = p.1 then some (p.2, rest) else none)
  | _ => []

/-- A space in the format: the regex `\s+`, greedy with backtracking — the
candidates consume the longest whitespace run first, down to one char. -/
def matchBlank (s : List Char) : List (Unit × List Char) :=
  (List.range (s.takeWhile isPySpace).length).map
    (fun i => ((), s.drop ((s.takeWhile isPySpace).length - i)))

def runDirective : Directive → TimeAcc → List Char → List (TimeAcc × List Char)
  | .year4, acc, s => (matchYear s).map (fun p => ({ acc with year := p.1 }, p.2))
  | .monthNum, acc, s => (matchMonthNum s).map (fun p => ({ acc with month := p.1 }, p.2))
  | .dayNum, acc, s => (matchDay s).map (fun p => ({ acc with day := p.1 }, p.2))
  | .monthAbbr, acc, s => (matchMonthName s).map (fun p => ({ acc with month := p.1 }, p.2))
  | .lit c, acc, s =>
    match s with
    | x :: rest => if x = c then [(acc, rest)] else []
    | [] => []
  | .blank, acc, s => (matchBlank s).map (fun p => (acc, p.2))

/-- All parses of a format against a string, in backtracking order. -/
def runFormat : List Directive → TimeAcc → List Char → List (TimeAcc × List Char)
  | [], acc, s => [(acc, s)]
  | d :: ds, acc, s => (runDirective d acc s).flatMap (fun p => runFormat ds p.1 p.2)

def isLeapYear (y : Nat) : Bool :=
  (y % 4 == 0 && y % 100 != 0) || y % 400 == 0

def daysInMonth (year month : Nat) : Nat :=
  if month = 2 then (if isLeapYear year then 29 else 28)
  else if month = 4 || month = 6 || month = 9 || month = 11 then 30
  else 31

/-- `datetime.strptime(s, fmt)` as the crawlers use it: the compiled regex
must match the whole string (else "unconverted data remains"), and the
`datetime(...)` constructor validates the day against the month length;
both failure modes raise `ValueError`, which the caller's
`except ValueError: continue` treats as "try the next format". -/
def strptime (fmt : List Directive) (s : List Char) : Option PyDate :=
  match (runFormat fmt {} s).filter (fun p => p.2.isEmpty) with
  | [] => none
  | p :: _ =>
    if p.1.day ≤ daysInMonth p.1.year p.1.month then
      some ⟨p.1.year, p.1.month, p.1.day⟩
    else none

/-- Try the formats in order; the first that parses wins. -/
def try_formats (fmts : List (List Directive)) (s : List Char) : Option PyDate :=
  match fmts with
  | [] => none
  | f :: rest =>
    match strptime f s with
    | some d => some d
    | none => try_formats rest s

def fmtY : List Directive := [.year4]
def fmtYMD : List Directive := [.year4, .lit '-', .monthNum, .lit '-', .dayNum]
def fmtDMYslash : List Directive := [.dayNum, .lit '/', .monthNum, .lit '/', .year4]
def fmtMDYslash : List Directive := [.monthNum, .lit '/', .dayNum, .lit '/', .year4]
def fmtDMYdash : List Directive := [.dayNum, .lit '-', .monthNum, .lit '-', .year4]
def fmtDMYdot : List Directive := [.dayNum, .lit '.', .monthNum, .lit '.', .year4]
def fmtDBY : List Directive := [.dayNum, .blank, .monthAbbr, .blank, .year4]
def fmtBY : List Directive := [.monthAbbr, .blank, .year4]

/-! ## Shared parsing helpers of the four crawlers -/

/-- `_get_xml_text` (the identical helper in each crawler): from the
element's text (`none` when the element is missing or has no text),
return the stripped text when the raw text is non-empty, else `None`.
(A whitespace-only text is truthy, so this can return an empty string.) -/
def get_xml_text (raw : Option PyStr) : Option PyStr :=
  match raw with
  | none => none
  | some t => if t = [] then none else some (pyStrip t)

/-- Python `a or d` for a string-or-None `a` and string default `d`. -/
def pyOr (a : Option PyStr) (d : PyStr) : PyStr :=
  match a with
  | some s => if s = [] then d else s
  | none => d

/-- Python `filter(None, parts)` over optional strings: keep the truthy
values. -/
def optsFilter (l : List (Option PyStr)) : List PyStr :=
  (l.filterMap id).filter (fun s => !s.isEmpty)

/-- Python `' '.join(parts)`. -/
def join_space : List PyStr → PyStr
  | [] => []
  | [x] => x
  | x :: y :: xs => x ++ ' ' :: join_space (y :: xs)

/-- Python `f"...none-able..."`: `None` prints as the string `"None"`. -/
def pyFormatOpt : Option PyStr → PyStr
  | none => lstr "None"
  | some s => s

/-- Python `needle in hay` (substring test). -/
def pyContains (hay needle : PyStr) : Bool :=
  (List.range (hay.length + 1)).any (fun i => needle.isPrefixOf (hay.drop i))

/-! ## OFAC crawler (`crawlers/ofac.py`) -/

namespace OFACCrawler

/-- The parts of one OFAC SDN XML record read by `_parse_entity`
(ofac.py:54-101) while computing `id`, `name`, `alternative_names` and
`entity_type`.  `uidAttr`/`sdnType` are raw attribute values
(`xml_element.get`); the `...Text` fields model the text of the named
descendant element, fed to `_get_xml_text`. -/
structure Raw where
  uidAttr : Option PyStr := none
  uidText : Option PyStr := none
  uidNumberText : Option PyStr := none
  firstNameText : Option PyStr := none
  lastNameText : Option PyStr := none
  titleText : Option PyStr := none
  sdnType : Option PyStr := none
  hasDateOfBirth : Bool := false
  akas : List (Option PyStr × Option PyStr) := []

/-- ofac.py:58-63: `xml_element.get('uid') or _get_xml_text('.//uid') or
_get_xml_text('.//uidNumber') or 'unknown'`. -/
def entity_id (r : Raw) : PyStr :=
  pyOr r.uidAttr
    (pyOr (get_xml_text r.uidText)
      (pyOr (get_xml_text r.uidNumberText) (lstr "unknown")))

/-- ofac.py:64-71: first/last name joined, else the title, falling back
to `"Unknown"`. -/
def primary_name (r : Raw) : PyStr :=
  let fn := get_xml_text r.firstNameText
  let ln := get_xml_text r.lastNameText
  if pyTruthyOpt fn || pyTruthyOpt ln then
    pyOr (some (pyStrip (join_space (optsFilter [fn, ln])))) (lstr "Unknown")
  else
    pyOr (get_xml_text r.titleText) (lstr "Unknown")

/-- `_extract_aliases` (ofac.py:103-117): each `aka` block with both a
first and a last name contributes `f"...first... ...last..."` stripped,
duplicates suppressed. -/
def extract_aliases (akas : List (Option PyStr × Option PyStr)) : List PyStr :=
  akas.foldl
    (fun acc p =>
      let fn := get_xml_text p.1
      let ln := get_xml_text p.2
      if pyTruthyOpt fn && pyTruthyOpt ln then
        let a := pyStrip (fn.getD [] ++ ' ' :: ln.getD [])
        if a ∈ acc then acc else acc ++ [a]
      else acc)
    []

/-- `_determine_entity_type` (ofac.py:119-136). -/
def determine_entity_type (r : Raw) : EntityType :=
  let t := pyLower (r.sdnType.getD [])
  if pyContains t (lstr "individual") then .person
  else if pyContains t (lstr "entity") then .entity
  else if pyContains t (lstr "vessel") then .vessel
  else if pyContains t (lstr "aircraft") then .aircraft
  else if r.hasDateOfBirth then .person
  else .unknown

/-- `_parse_entity` (ofac.py:54-101) through the `SanctionEntity(...)`
construction (ofac.py:80-88); the subsequent `_extract_addresses` /
`_extract_identifiers` / `_extract_dates` / `_extract_sanctions_info` /
`_extract_personal_info` calls only append to the address, identifier,
date, program and personal fields and never touch `id` or `name`.
`config_source` is `self.config.source`. -/
def parse_entity (config_source : PyStr) (r : Raw) : SanctionEntity :=
  { id := lstr "ofac-" ++ entity_id r
    name := primary_name r
    alternative_names := extract_aliases r.akas
    entity_type := determine_entity_type r
    source := config_source
    source_id := some (entity_id r) }

/-- `_parse_date` (ofac.py:277-298). -/
def parse_date (date_str : PyStr) : Option PyDate :=
  if date_str = [] then none
  else try_formats [fmtDBY, fmtYMD, fmtDMYslash, fmtMDYslash, fmtY]
    (pyStrip date_str)

end OFACCrawler

/-! ## UK Treasury crawler (`crawlers/uk_treasury.py`) -/

namespace UKTreasuryCrawler

/-- One CSV row as read by `_parse_entity` (uk_treasury.py:47-89); each
field is `row_data.get(column, '')`, before the `.strip()` applied in the
parser. -/
structure Row where
  groupId : PyStr := []
  name1 : PyStr := []
  name2 : PyStr := []
  name3 : PyStr := []
  name4 : PyStr := []
  name5 : PyStr := []
  name6 : PyStr := []
  groupType : PyStr := []
  dob : PyStr := []

/-- uk_treasury.py:60: the stripped, non-empty name columns in order. -/
def names (r : Row) : List PyStr :=
  ([r.name1, r.name2, r.name3, r.name4, r.name5, r.name6].map pyStrip).filter
    (fun s => !s.isEmpty)

/-- `_determine_entity_type` (uk_treasury.py:91-106). -/
def determine_entity_type (r : Row) : EntityType :=
  let t := pyLower r.groupType
  if pyContains t (lstr "individual") then .person
  else if pyContains t (lstr "entity") || pyContains t (lstr "organisation") then .entity
  else if pyContains t (lstr "ship") || pyContains t (lstr "vessel") then .vessel
  else if r.dob ≠ [] then .person
  else .unknown

/-- `_parse_entity` (uk_treasury.py:47-89) through the
`SanctionEntity(...)` construction (uk_treasury.py:68-76); the subsequent
`_extract_*` calls only append to address, identifier, date, program and
personal fields and never touch `id` or `name`. -/
def parse_entity (config_source : PyStr) (r : Row) : SanctionEntity :=
  let entity_id := pyStrip r.groupId
  { id := lstr "uk-" ++ entity_id
    name := (names r).headD (lstr "Unknown")
    alternative_names := (names r).tail
    entity_type := determine_entity_type r
    source := config_source
    source_id := some entity_id }

/-- `str.replace('00/00/', '01/01/')`: replace every (non-overlapping)
occurrence, scanning left to right (uk_treasury.py:272). -/
def replace_0000 : List Char → List Char
  | '0' :: '0' :: '/' :: '0' :: '0' :: '/' :: rest => lstr "01/01/" ++ replace_0000 rest
  | c :: rest => c :: replace_0000 rest
  | [] => []

/-- `_parse_date` (uk_treasury.py:256-281): empty → None; strip, then
normalize the `00/00/` placeholder, then try the formats in order. -/
def parse_date (date_str : PyStr) : Option PyDate :=
  if date_str = [] then none
  else try_formats [fmtDMYslash, fmtDMYdash, fmtYMD, fmtDBY, fmtBY, fmtY]
    (replace_0000 (pyStrip date_str))

end UKTreasuryCrawler

/-! ## UN sanctions crawler (`crawlers/un_sanctions.py`) -/

namespace UNSanctionsCrawler

/-- One alias block (`INDIVIDUAL_ALIAS`/`ENTITY_ALIAS`),
un_sanctions.py:129-139. -/
structure RawAlias where
  aliasNameText : Option PyStr := none
  qualityText : Option PyStr := none

/-- The parts of one UN XML record read while computing `id`, `name`,
`alternative_names` and `entity_type` (un_sanctions.py:53-105).
`dataidAttr` is the raw `dataid` attribute; the `...Text` fields model
element texts fed to `_get_xml_text`; `tag` is the record element's tag
name. -/
structure Raw where
  dataidAttr : Option PyStr := none
  referenceNumberText : Option PyStr := none
  firstNameText : Option PyStr := none
  secondNameText : Option PyStr := none
  thirdNameText : Option PyStr := none
  fourthNameText : Option PyStr := none
  nameOriginalScriptText : Option PyStr := none
  entityNameText : Option PyStr := none
  aliases : List RawAlias := []
  tag : PyStr := []
  hasFirstNameElem : Bool := false
  hasEntityNameElem : Bool := false

/-- un_sanctions.py:57-62: `xml_element.get('dataid') or
_get_xml_text('@dataid') or _get_xml_text('REFERENCE_NUMBER') or
'unknown'` (the `@dataid` lookup returns the same attribute, stripped). -/
def entity_id (r : Raw) : PyStr :=
  pyOr r.dataidAttr
    (pyOr (r.dataidAttr.map pyStrip)
      (pyOr (get_xml_text r.referenceNumberText) (lstr "unknown")))

/-- The alias loop of `_extract_names` (un_sanctions.py:129-139),
accumulating onto `names`. -/
def names_aliases (names : List PyStr) : List RawAlias → List PyStr
  | [] => names
  | a :: rest =>
    let parts := optsFilter [get_xml_text a.aliasNameText, get_xml_text a.qualityText]
    let names2 :=
      if parts.isEmpty then names
      else
        let an := pyStrip (join_space parts)
        if an ≠ [] ∧ an ∉ names then names ++ [an] else names
    names_aliases names2 rest

/-- `_extract_names` (un_sanctions.py:107-141): the concatenated name
fields (when any is present and the join is non-blank), then the alias
blocks. -/
def extract_names (r : Raw) : List PyStr :=
  let parts := optsFilter
    [get_xml_text r.firstNameText, get_xml_text r.secondNameText,
     get_xml_text r.thirdNameText, get_xml_text r.fourthNameText,
     get_xml_text r.nameOriginalScriptText, get_xml_text r.entityNameText]
  let names0 : List PyStr :=
    if parts.isEmpty then []
    else
      let full := pyStrip (join_space parts)
      if full ≠ [] then [full] else []
  names_aliases names0 r.aliases

/-- The fallback of `_parse_entity` for simple mock inputs
(un_sanctions.py:66-76): join the four name fields and keep the result if
non-empty. -/
def fallback_names (r : Raw) : List PyStr :=
  [pyStrip (join_space (optsFilter
    [get_xml_text r.firstNameText, get_xml_text r.secondNameText,
     get_xml_text r.thirdNameText, get_xml_text r.fourthNameText]))].filter
    (fun s => !s.isEmpty)

/-- `_determine_entity_type` (un_sanctions.py:143-159); the two fallback
checks are `find(...) is not None`, i.e. element presence. -/
def determine_entity_type (r : Raw) : EntityType :=
  let t := pyLower r.tag
  if pyContains t (lstr "individual") then .person
  else if pyContains t (lstr "entity") then .entity
  else if r.hasFirstNameElem then .person
  else if r.hasEntityNameElem then .entity
  else .unknown

/-- `_parse_entity` (un_sanctions.py:53-105) through the
`SanctionEntity(...)` construction (un_sanctions.py:84-92); the subsequent
`_extract_*` calls only append to address, identifier, date, program and
personal fields and never touch `id` or `name`. -/
def parse_entity (config_source : PyStr) (r : Raw) : SanctionEntity :=
  let names :=
    match extract_names r with
    | [] => fallback_names r
    | ns => ns
  { id := lstr "un-" ++ entity_id r
    name := names.headD (lstr "Unknown")
    alternative_names := names.tail
    entity_type := determine_entity_type r
    source := config_source
    source_id := some (entity_id r) }

/-- `_parse_date` (un_sanctions.py:302-321). -/
def parse_date (date_str : PyStr) : Option PyDate :=
  if date_str = [] then none
  else try_formats [fmtYMD, fmtDBY, fmtY] (pyStrip date_str)

end UNSanctionsCrawler

/-! ## EU sanctions crawler (`crawlers/eu_sanctions.py`) -/

namespace EUSanctionsCrawler

/-- One `nameAlias` block (eu_sanctions.py:92-106). -/
structure RawNameAlias where
  wholeNameText : Option PyStr := none
  firstNameText : Option PyStr := none
  middleNameText : Option PyStr := none
  lastNameText : Option PyStr := none

/-- The parts of one EU XML record read while computing `id`, `name`,
`alternative_names` and `entity_type` (eu_sanctions.py:48-85). -/
structure Raw where
  unitIdText : Option PyStr := none
  logicalIdText : Option PyStr := none
  nameAliases : List RawNameAlias := []
  subjectTypeText : Option PyStr := none
  hasBirthdate : Bool := false
  hasIdentification : Bool := false

/-- eu_sanctions.py:52-54: `unitId`, else `logicalId` (either may be
`None`). -/
def entity_id (r : Raw) : Option PyStr :=
  let a := get_xml_text r.unitIdText
  if pyTruthyOpt a then a else get_xml_text r.logicalIdText

/-- The `nameAlias` loop of `_extract_names` (eu_sanctions.py:92-106):
append the whole-name when truthy, then the joined structured name when
any part is present and the join is non-empty and new. -/
def names_go (names : List PyStr) : List RawNameAlias → List PyStr
  | [] => names
  | na :: rest =>
    let wn := get_xml_text na.wholeNameText
    let names1 :=
      if pyTruthyOpt wn then names ++ [pyStrip (wn.getD [])] else names
    let f := get_xml_text na.firstNameText
    let m := get_xml_text na.middleNameText
    let l := get_xml_text na.lastNameText
    let names2 :=
      if pyTruthyOpt f || pyTruthyOpt m || pyTruthyOpt l then
        let full := join_space (optsFilter [f, m, l])
        if full ≠ [] ∧ full ∉ names1 then names1 ++ [pyStrip full] else names1
      else names1
    names_go names2 rest

/-- `_extract_names` (eu_sanctions.py:87-108). -/
def extract_names (r : Raw) : List PyStr :=
  names_go [] r.nameAliases

/-- `_determine_entity_type` (eu_sanctions.py:110-134). -/
def determine_entity_type (r : Raw) : EntityType :=
  match get_xml_text r.subjectTypeText with
  | some st =>
    if st ≠ [] then
      let t := pyLower st
      if pyContains t (lstr "person") || pyContains t (lstr "individual") then .person
      else if pyContains t (lstr "entity") || pyContains t (lstr "enterprise") then .entity
      else if pyContains t (lstr "vessel") || pyContains t (lstr "ship") then .vessel
      else if r.hasBirthdate then .person
      else if r.hasIdentification then .entity
      else .unknown
    else if r.hasBirthdate then .person
    else if r.hasIdentification then .entity
    else .unknown
  | none =>
    if r.hasBirthdate then .person
    else if r.hasIdentification then .entity
    else .unknown

/-- `_parse_entity` (eu_sanctions.py:48-85) through the
`SanctionEntity(...)` construction (eu_sanctions.py:64-72); the subsequent
`_extract_*` calls only append to address, identifier, date, program and
personal fields and never touch `id` or `name`.  Note the id is the
f-string `f"eu-...entity_id..."`, which renders a missing id as the
string `"None"`. -/
def parse_entity (config_source : PyStr) (r : Raw) : SanctionEntity :=
  let names := extract_names r
  { id := lstr "eu-" ++ pyFormatOpt (entity_id r)
    name := names.headD (lstr "Unknown")
    alternative_names := names.tail
    entity_type := determine_entity_type r
    source := config_source
    source_id := entity_id r }

/-- `_parse_date` (eu_sanctions.py:280-300). -/
def parse_date (date_str : PyStr) : Option PyDate :=
  if date_str = [] then none
  else try_formats [fmtYMD, fmtDMYslash, fmtDMYdot, fmtY] (pyStrip date_str)

end EUSanctionsCrawler

/-! ## General lemmas about the string model -/

theorem pyStrip_ne_nil_iff (s : PyStr) :
    pyStrip s ≠ [] ↔ ∃ c ∈ s, isPySpace c = false := by
  rw [Ne, pyStrip_eq_nil_iff]
  push_neg
  simp [Bool.not_eq_true]

theorem pyStrip_append_left_ne_nil (a b : PyStr) (c : Char) (hc : c ∈ a)
    (hns : isPySpace c = false) : pyStrip (a ++ b) ≠ [] :=
  (pyStrip_ne_nil_iff (a ++ b)).mpr ⟨c, List.mem_append_left b hc, hns⟩

/-- The validator accepts exactly the entities with non-blank trimmed
name, non-blank trimmed id, and (untrimmed) non-empty source. -/
theorem validate_entity_eq_true_iff (e : SanctionEntity) :
    BaseCrawler.validate_entity e = true ↔
      pyStrip e.name ≠ [] ∧ pyStrip e.id ≠ [] ∧ e.source ≠ [] := by
  unfold BaseCrawler.validate_entity
  split_ifs with h1 h2 h3
  · simp only [false_iff]
    rintro ⟨hn, -, -⟩
    rcases h1 with h | h
    · exact hn (by rw [h]; exact pyStrip_nil)
    · exact hn h
  · simp only [false_iff]
    rintro ⟨-, hi, -⟩
    rcases h2 with h | h
    · exact hi (by rw [h]; exact pyStrip_nil)
    · exact hi h
  · simp only [false_iff]
    rintro ⟨-, -, hs⟩
    exact hs h3
  · simp only [true_iff]
    push_neg at h1 h2
    exact ⟨h1.2, h2.2, h3⟩

/-- `_get_xml_text` only returns already-stripped strings. -/
theorem get_xml_text_stripped (o : Option PyStr) (s : PyStr)
    (h : get_xml_text o = some s) : pyStrip s = s := by
  unfold get_xml_text at h
  cases o with
  | none => cases h
  | some t =>
    simp only [] at h
    by_cases ht : t = []
    · rw [if_pos ht] at h
      cases h
    · rw [if_neg ht] at h
      injection h with h
      rw [← h]
      exact pyStrip_idem t

theorem pyTruthyOpt_iff (o : Option PyStr) :
    pyTruthyOpt o = true ↔ ∃ s, o = some s ∧ s ≠ [] := by
  cases o with
  | none => simp [pyTruthyOpt]
  | some s => simp [pyTruthyOpt, pyTruthy, List.isEmpty_iff]

theorem mem_optsFilter (l : List (Option PyStr)) (x : PyStr)
    (hx : x ∈ optsFilter l) : some x ∈ l ∧ x ≠ [] := by
  unfold optsFilter at hx
  rcases List.mem_filter.mp hx with ⟨h1, h2⟩
  rcases List.mem_filterMap.mp h1 with ⟨o, ho, hid⟩
  refine ⟨?_, ?_⟩
  · have : o = some x := hid
    rw [← this]
    exact ho
  · simpa [List.isEmpty_iff] using h2

/-- Elements of `filter(None, ...)` over already-stripped optional
strings are stripped and non-empty. -/
theorem clean_of_mem_opts (l : List (Option PyStr))
    (hl : ∀ o ∈ l, ∀ s, o = some s → pyStrip s = s) :
    ∀ x ∈ optsFilter l, pyStrip x = x ∧ x ≠ [] := by
  intro x hx
  have h := mem_optsFilter l x hx
  exact ⟨hl (some x) h.1 x rfl, h.2⟩

theorem get_list_stripped (raws : List (Option PyStr)) :
    ∀ o ∈ raws.map get_xml_text, ∀ s, o = some s → pyStrip s = s := by
  intro o ho s hs
  rcases List.mem_map.mp ho with ⟨r, -, rfl⟩
  exact get_xml_text_stripped r s hs

theorem join_space_mem (parts : List PyStr) (p : PyStr) (hp : p ∈ parts)
    (c : Char) (hc : c ∈ p) : c ∈ join_space parts := by
  induction parts with
  | nil => cases hp
  | cons x xs ih =>
    rcases List.mem_cons.mp hp with rfl | hp2
    · cases xs with
      | nil => simpa [join_space] using hc
      | cons y ys =>
        simp only [join_space, List.mem_append]
        exact Or.inl hc
    · cases xs with
      | nil => cases hp2
      | cons y ys =>
        have := ih hp2
        simp only [join_space, List.mem_append, List.mem_cons]
        exact Or.inr (Or.inr this)

/-- Joining a list that holds a stripped non-empty part yields a string
that is non-blank after stripping. -/
theorem join_space_strip_ne_nil (parts : List PyStr) (p : PyStr)
    (hp : p ∈ parts) (hps : pyStrip p = p) (hpn : p ≠ []) :
    pyStrip (join_space parts) ≠ [] := by
  have hex : ∃ c ∈ p, isPySpace c = false :=
    (pyStrip_ne_nil_iff p).mp (by rw [hps]; exact hpn)
  rcases hex with ⟨c, hc, hcs⟩
  exact (pyStrip_ne_nil_iff _).mpr ⟨c, join_space_mem parts p hp c hc, hcs⟩

/-- The head of a list of stripped non-empty names, with the `"Unknown"`
default, is non-blank after trimming. -/
theorem clean_headD (l : List PyStr)
    (hl : ∀ x ∈ l, pyStrip x = x ∧ x ≠ []) :
    pyStrip (l.headD (lstr "Unknown")) ≠ [] := by
  cases l with
  | nil => decide
  | cons h t =>
    have hh := hl h (List.mem_cons_self h t)
    simp only [List.headD_cons]
    rw [hh.1]
    exact hh.2

/-- A string that trims to something non-empty is itself non-empty. -/
theorem ne_nil_of_pyStrip_ne_nil (s : PyStr) (h : pyStrip s ≠ []) : s ≠ [] :=
  fun hs => h (by rw [hs]; exact pyStrip_nil)

/-! ## Per-parser name lemmas -/

/-- The OFAC primary name is non-blank after trimming: each branch either
produces a freshly stripped non-empty string or falls back to
`"Unknown"`. -/
theorem ofac_primary_name_strip_ne_nil (r : OFACCrawler.Raw) :
    pyStrip (OFACCrawler.primary_name r) ≠ [] := by
  unfold OFACCrawler.primary_name
  by_cases h : (pyTruthyOpt (get_xml_text r.firstNameText)
      || pyTruthyOpt (get_xml_text r.lastNameText)) = true
  · rw [if_pos h]
    unfold pyOr
    simp only []
    by_cases hj : pyStrip (join_space (optsFilter
        [get_xml_text r.firstNameText, get_xml_text r.lastNameText])) = []
    · rw [if_pos hj]
      decide
    · rw [if_neg hj]
      rw [pyStrip_idem]
      exact hj
  · rw [if_neg h]
    cases ht : get_xml_text r.titleText with
    | none => decide
    | some s =>
      unfold pyOr
      simp only []
      by_cases hs : s = []
      · rw [if_pos hs]
        decide
      · rw [if_neg hs]
        rw [get_xml_text_stripped r.titleText s ht]
        exact hs

theorem uk_names_clean (r : UKTreasuryCrawler.Row) :
    ∀ x ∈ UKTreasuryCrawler.names r, pyStrip x = x ∧ x ≠ [] := by
  intro x hx
  unfold UKTreasuryCrawler.names at hx
  rcases List.mem_filter.mp hx with ⟨hx1, hx2⟩
  rcases List.mem_map.mp hx1 with ⟨y, -, rfl⟩
  exact ⟨pyStrip_idem y, by simpa [List.isEmpty_iff] using hx2⟩

/-- The UN alias loop preserves "every collected name is stripped and
non-empty". -/
theorem un_names_aliases_clean (al : List UNSanctionsCrawler.RawAlias) :
    ∀ names : List PyStr, (∀ x ∈ names, pyStrip x = x ∧ x ≠ []) →
      ∀ x ∈ UNSanctionsCrawler.names_aliases names al,
        pyStrip x = x ∧ x ≠ [] := by
  induction al with
  | nil =>
    intro names h x hx
    exact h x hx
  | cons a rest ih =>
    intro names h x hx
    simp only [UNSanctionsCrawler.names_aliases] at hx
    refine ih _ ?_ x hx
    intro y hy
    split_ifs at hy with h1 h2
    · exact h y hy
    · rcases List.mem_append.mp hy with hy | hy
      · exact h y hy
      · rw [List.mem_singleton] at hy
        subst hy
        exact ⟨pyStrip_idem _, h2.1⟩
    · exact h y hy

theorem un_extract_names_clean (r : UNSanctionsCrawler.Raw) :
    ∀ x ∈ UNSanctionsCrawler.extract_names r, pyStrip x = x ∧ x ≠ [] := by
  unfold UNSanctionsCrawler.extract_names
  apply un_names_aliases_clean
  intro x hx
  simp only [] at hx
  split_ifs at hx with h1 h2
  · cases hx
  · rw [List.mem_singleton] at hx
    subst hx
    exact ⟨pyStrip_idem _, h2⟩
  · cases hx

theorem un_fallback_names_clean (r : UNSanctionsCrawler.Raw) :
    ∀ x ∈ UNSanctionsCrawler.fallback_names r, pyStrip x = x ∧ x ≠ [] := by
  intro x hx
  unfold UNSanctionsCrawler.fallback_names at hx
  rcases List.mem_filter.mp hx with ⟨hx1, hx2⟩
  rw [List.mem_singleton] at hx1
  subst hx1
  exact ⟨pyStrip_idem _, by simpa [List.isEmpty_iff] using hx2⟩

/-- The EU `nameAlias` loop preserves "every collected name is stripped
and non-empty". -/
theorem eu_names_go_clean (al : List EUSanctionsCrawler.RawNameAlias) :
    ∀ names : List PyStr, (∀ x ∈ names, pyStrip x = x ∧ x ≠ []) →
      ∀ x ∈ EUSanctionsCrawler.names_go names al,
        pyStrip x = x ∧ x ≠ [] := by
  induction al with
  | nil =>
    intro names h x hx
    exact h x hx
  | cons na rest ih =>
    intro names h x hx
    simp only [EUSanctionsCrawler.names_go] at hx
    refine ih _ ?_ x hx
    have h1 : ∀ y ∈ (if pyTruthyOpt (get_xml_text na.wholeNameText) then
        names ++ [pyStrip ((get_xml_text na.wholeNameText).getD [])]
      else names), pyStrip y = y ∧ y ≠ [] := by
      intro y hy
      split_ifs at hy with hw
      · rcases List.mem_append.mp hy with hy | hy
        · exact h y hy
        · rw [List.mem_singleton] at hy
          subst hy
          refine ⟨pyStrip_idem _, ?_⟩
          rcases (pyTruthyOpt_iff _).mp hw with ⟨s, hs, hsn⟩
          rw [hs, Option.getD_some, get_xml_text_stripped _ s hs]
          exact hsn
      · exact h y hy
    set names1 := (if pyTruthyOpt (get_xml_text na.wholeNameText) then
        names ++ [pyStrip ((get_xml_text na.wholeNameText).getD [])]
      else names) with hn1
    intro y hy
    split_ifs at hy with hg hf
    · rcases List.mem_append.mp hy with hy | hy
      · exact h1 y hy
      · rw [List.mem_singleton] at hy
        subst hy
        refine ⟨pyStrip_idem _, ?_⟩
        have hfull := hf.1
        cases hparts : optsFilter [get_xml_text na.firstNameText,
            get_xml_text na.middleNameText, get_xml_text na.lastNameText] with
        | nil =>
          rw [hparts] at hfull
          cases hfull rfl
        | cons p ps =>
          have hmem : p ∈ optsFilter [get_xml_text na.firstNameText,
              get_xml_text na.middleNameText, get_xml_text na.lastNameText] := by
            rw [hparts]
            exact List.mem_cons_self p ps
          have hp := mem_optsFilter _ p hmem
          have hps : pyStrip p = p := by
            rcases List.mem_cons.mp hp.1 with h | h
            · exact get_xml_text_stripped _ p h.symm
            · rcases List.mem_cons.mp h with h | h
              · exact get_xml_text_stripped _ p h.symm
              · rcases List.mem_cons.mp h with h | h
                · exact get_xml_text_stripped _ p h.symm
                · cases h
          exact join_space_strip_ne_nil _ p (List.mem_cons_self p ps) hps hp.2
    · exact h1 y hy
    · exact h1 y hy

theorem eu_extract_names_clean (r : EUSanctionsCrawler.Raw) :
    ∀ x ∈ EUSanctionsCrawler.extract_names r, pyStrip x = x ∧ x ≠ [] := by
  unfold EUSanctionsCrawler.extract_names
  apply eu_names_go_clean
  intro x hx
  cases hx

/-! ## Claim theorems -/

/-- C4, counterexample: the validator accepts an entity whose `source` is
a single space — a source that is blank after trimming — because the
source check applies no `.strip()`; this contradicts the claim that
`validate` returns true only when `source` is non-blank after trimming
and that a whitespace-only source is rejected. -/
theorem c4_whitespace_source_accepted :
    BaseCrawler.validate_entity
      { id := lstr "x-1", name := lstr "Alice", entity_type := .person,
        source := lstr " " } = true
    ∧ pyStrip (lstr " ") = [] := by
  decide

/-- C4 (amended): `_validate_entity` never raises (it is total and
boolean-valued) and returns `true` iff the entity's `name` and `id` are
non-blank after trimming and its `source` is non-empty; the source is not
trimmed, so a whitespace-only source is accepted. -/
theorem c4_validate_entity_iff (e : SanctionEntity) :
    BaseCrawler.validate_entity e = true ↔
      pyStrip e.name ≠ [] ∧ pyStrip e.id ≠ [] ∧ e.source ≠ [] :=
  validate_entity_eq_true_iff e

theorem spec_first_occurrence_nil : spec_first_occurrence [] = [] := by
  rw [spec_first_occurrence.eq_def]

theorem spec_first_occurrence_cons (e : SanctionEntity)
    (rest : List SanctionEntity) :
    spec_first_occurrence (e :: rest) =
      e :: spec_first_occurrence
        (rest.filter (fun x => decide (dedup_key x ≠ dedup_key e))) := by
  rw [spec_first_occurrence.eq_def]

theorem dedup_go_nil (seen : List PyStr) : dedup_go seen [] = [] := rfl

theorem dedup_go_cons (seen : List PyStr) (e : SanctionEntity)
    (rest : List SanctionEntity) :
    dedup_go seen (e :: rest) =
      if dedup_key e ∈ seen then dedup_go seen rest
      else e :: dedup_go (dedup_key e :: seen) rest := rfl

/-- Running the dedup loop with keys `seen` already recorded behaves like
the first-occurrence specification on the input with already-seen keys
filtered away. -/
theorem dedup_go_spec (xs : List SanctionEntity) :
    ∀ seen : List PyStr,
      dedup_go seen xs =
        spec_first_occurrence (xs.filter (fun x => decide (dedup_key x ∉ seen))) := by
  induction xs with
  | nil => intro seen; rw [dedup_go_nil, List.filter_nil, spec_first_occurrence_nil]
  | cons e rest ih =>
    intro seen
    rw [dedup_go_cons]
    by_cases h : dedup_key e ∈ seen
    · rw [if_pos h]
      have hfc : (e :: rest).filter (fun x => decide (dedup_key x ∉ seen)) =
          rest.filter (fun x => decide (dedup_key x ∉ seen)) := by
        simp [List.filter_cons, h]
      rw [hfc]
      exact ih seen
    · rw [if_neg h]
      have hfc : (e :: rest).filter (fun x => decide (dedup_key x ∉ seen)) =
          e :: rest.filter (fun x => decide (dedup_key x ∉ seen)) := by
        simp [List.filter_cons, h]
      rw [hfc, spec_first_occurrence_cons, ih (dedup_key e :: seen),
        List.filter_filter]
      congr 1
      apply congrArg
      apply List.filter_congr
      intro x _
      by_cases h1 : dedup_key x = dedup_key e <;>
        by_cases h2 : dedup_key x ∈ seen <;>
          simp [h1, h2, List.mem_cons]

/-- The dedup loop is idempotent for any starting `seen` set. -/
theorem dedup_go_idem (xs : List SanctionEntity) :
    ∀ seen : List PyStr, dedup_go seen (dedup_go seen xs) = dedup_go seen xs := by
  induction xs with
  | nil => intro seen; rfl
  | cons e rest ih =>
    intro seen
    rw [dedup_go_cons]
    by_cases h : dedup_key e ∈ seen
    · rw [if_pos h]
      exact ih seen
    · rw [if_neg h, dedup_go_cons, if_neg h]
      rw [ih (dedup_key e :: seen)]

/-- C7: `deduplicate_entities` keeps exactly the first occurrence of each
key `source + ":" + lowercase(name)` — it equals the first-occurrence
specification, which keeps each entity and drops every later entity with
the same key — and it is idempotent. -/
theorem c7_dedup_first_wins_idem (xs : List SanctionEntity) :
    deduplicate_entities xs = spec_first_occurrence xs ∧
    deduplicate_entities (deduplicate_entities xs) = deduplicate_entities xs := by
  refine ⟨?_, dedup_go_idem xs []⟩
  have h := dedup_go_spec xs []
  simpa [deduplicate_entities] using h

theorem round2_bounds (q : ℚ) (h0 : 0 ≤ q) (h1 : q ≤ 1) :
    0 ≤ round2 q ∧ round2 q ≤ 1 := by
  unfold round2
  rw [round_eq]
  have hl : (0 : ℤ) ≤ ⌊q * 100 + 1 / 2⌋ := by
    refine Int.le_floor.mpr ?_
    push_cast
    nlinarith
  have hu : ⌊q * 100 + 1 / 2⌋ ≤ 100 := by
    have hx : q * 100 + 1 / 2 < ((101 : ℤ) : ℚ) := by
      push_cast
      nlinarith
    have := Int.floor_lt.mpr hx
    omega
  constructor
  · apply div_nonneg _ (by norm_num)
    exact_mod_cast hl
  · rw [div_le_one (by norm_num)]
    exact_mod_cast hu

/-- C8: enrichment attaches the placeholder program exactly when the
entity has no sanctions program, sets the quality score to
`round(min(0.4·hasAddress + 0.4·hasIdentifier + 0.2·hasAltNames, 1.0), 2)`,
and the resulting score always lies in `[0, 1]`; `enrich_entities`
applies this to every entity in order. -/
theorem c8_enrich_score (xs : List SanctionEntity) (e : SanctionEntity) :
    enrich_entities xs = xs.map enrich_one ∧
    (enrich_one e).sanctions_programs =
      (if e.sanctions_programs.isEmpty then [placeholder_program e.source]
       else e.sanctions_programs) ∧
    (enrich_one e).data_quality_score =
      some (round2 (min ((0 : ℚ)
        + (if e.addresses.isEmpty then 0 else 0.4)
        + (if e.identifiers.isEmpty then 0 else 0.4)
        + (if e.alternative_names.isEmpty then 0 else 0.2)) 1)) ∧
    (∃ q : ℚ, (enrich_one e).data_quality_score = some q ∧ 0 ≤ q ∧ q ≤ 1) := by
  refine ⟨rfl, ?_, rfl, ?_⟩
  · by_cases h : e.sanctions_programs.isEmpty
    · simp [enrich_one, h, List.isEmpty_iff.mp h]
    · simp [enrich_one, h]
  · set s : ℚ := (0 : ℚ)
      + (if e.addresses.isEmpty then 0 else 0.4)
      + (if e.identifiers.isEmpty then 0 else 0.4)
      + (if e.alternative_names.isEmpty then 0 else 0.2) with hs
    have hs0 : 0 ≤ s := by
      rw [hs]
      split_ifs <;> norm_num
    have hb := round2_bounds (min s 1) (le_min hs0 (by norm_num)) (min_le_right s 1)
    exact ⟨round2 (min s 1), rfl, hb.1, hb.2⟩

/-- C1: `crawl()` never propagates an exception: for every session state,
session-creation outcome, fetch outcome and parser, the returned value is
`Except.ok` of a well-formed `CrawlResult`; when the try-block raises
(session creation or fetch failed), the exception is captured as the
formatted string in the error list and the result carries the entities
and errors accumulated up to that point (none, since the failure precedes
record processing); when the try-block completes, the accumulated
entities and errors are returned. -/
theorem c1_crawl_never_raises {α : Type} (sessionOpen : Bool)
    (cs : Except BaseCrawler.PyExc Unit)
    (fd : Except BaseCrawler.PyExc (BaseCrawler.RawData α))
    (parse : α → Except BaseCrawler.PyExc SanctionEntity) (source : PyStr) :
    (BaseCrawler.crawl sessionOpen cs fd parse source).1.isOk = true ∧
    (∀ e, BaseCrawler.crawl_try sessionOpen cs fd parse = .error e →
      (BaseCrawler.crawl sessionOpen cs fd parse source).1 =
        .ok { source := source, entities := [], total_entities := 0,
              success_count := 0, error_count := 1,
              errors := [BaseCrawler.crawl_fail_msg source e] }) ∧
    (∀ es errs, BaseCrawler.crawl_try sessionOpen cs fd parse = .ok (es, errs) →
      (BaseCrawler.crawl sessionOpen cs fd parse source).1 =
        .ok { source := source, entities := es, total_entities := es.length,
              success_count := es.length, error_count := errs.length,
              errors := errs }) := by
  refine ⟨?_, ?_, ?_⟩
  · simp only [BaseCrawler.crawl]
    cases BaseCrawler.crawl_try sessionOpen cs fd parse <;> rfl
  · intro e he
    simp only [BaseCrawler.crawl, he]
    rfl
  · intro es errs he
    simp only [BaseCrawler.crawl, he]

/-- Witness for C1 at a concrete failing run: session creation raises,
and the run still returns a well-formed result with the captured error. -/
theorem c1_crawl_never_raises_witness :
    (BaseCrawler.crawl (α := Unit) false (.error (lstr "boom"))
        (.ok (.pylist [])) (fun _ => .error (lstr "parse")) (lstr "test")).1 =
      .ok { source := lstr "test", entities := [], total_entities := 0,
            success_count := 0, error_count := 1,
            errors := [BaseCrawler.crawl_fail_msg (lstr "test") (lstr "boom")] } :=
  (c1_crawl_never_raises false (.error (lstr "boom")) (.ok (.pylist []))
    (fun _ => .error (lstr "parse")) (lstr "test")).2.1 (lstr "boom") rfl

/-- C2: in `_process_data` over a list of raw records, one record whose
parse raises is simply skipped — the records before and after it are
processed exactly as they would be on their own — and any later record
that parses successfully contributes its entity to the output. -/
theorem c2_parse_failure_skips_one_record {α : Type}
    (parse : α → Except BaseCrawler.PyExc SanctionEntity)
    (xs ys : List α) (b : α) (e : BaseCrawler.PyExc)
    (hb : parse b = .error e) :
    BaseCrawler.process_data parse (.pylist (xs ++ b :: ys)) =
      BaseCrawler.process_data parse (.pylist xs) ++
        BaseCrawler.process_data parse (.pylist ys) ∧
    (∀ y ent, y ∈ ys → parse y = .ok ent →
      ent ∈ BaseCrawler.process_data parse (.pylist (xs ++ b :: ys))) := by
  constructor
  · simp [BaseCrawler.process_data, List.filterMap_append, List.filterMap_cons,
      hb, Except.toOption]
  · intro y ent hy hp
    simp only [BaseCrawler.process_data]
    refine List.mem_filterMap.mpr ⟨y, ?_, ?_⟩
    · simp [hy]
    · simp [hp, Except.toOption]

/-- Witness for C2 at a concrete input: the failing middle record is
dropped, both siblings survive. -/
theorem c2_parse_failure_skips_one_record_witness :
    BaseCrawler.process_data
        (fun b : Bool =>
          if b then
            .ok ({ id := lstr "t-1", name := lstr "A", entity_type := .person,
                   source := lstr "t" } : SanctionEntity)
          else .error (lstr "bad"))
        (.pylist [true, false, true]) =
      BaseCrawler.process_data
        (fun b : Bool =>
          if b then
            .ok ({ id := lstr "t-1", name := lstr "A", entity_type := .person,
                   source := lstr "t" } : SanctionEntity)
          else .error (lstr "bad"))
        (.pylist [true]) ++
      BaseCrawler.process_data
        (fun b : Bool =>
          if b then
            .ok ({ id := lstr "t-1", name := lstr "A", entity_type := .person,
                   source := lstr "t" } : SanctionEntity)
          else .error (lstr "bad"))
        (.pylist [true]) :=
  (c2_parse_failure_skips_one_record _ [true] [true] false (lstr "bad") rfl).1

/-- C3: whatever happens during the run, the `CrawlResult` assembled by
`crawl()` satisfies `total_entities = len(entities)`,
`success_count = total_entities` and `error_count = len(errors)` (the
result is built exactly once, in the `finally` block, from the
accumulated lists — in this pure model it is a value and cannot be
mutated afterwards). -/
theorem c3_crawl_result_counts {α : Type} (sessionOpen : Bool)
    (cs : Except BaseCrawler.PyExc Unit)
    (fd : Except BaseCrawler.PyExc (BaseCrawler.RawData α))
    (parse : α → Except BaseCrawler.PyExc SanctionEntity) (source : PyStr)
    (r : CrawlResult)
    (h : (BaseCrawler.crawl sessionOpen cs fd parse source).1 = .ok r) :
    r.total_entities = r.entities.length ∧
    r.success_count = r.total_entities ∧
    r.error_count = r.errors.length := by
  simp only [BaseCrawler.crawl] at h
  cases hct : BaseCrawler.crawl_try sessionOpen cs fd parse with
  | ok p =>
    rw [hct] at h
    injection h with h
    subst h
    exact ⟨rfl, rfl, rfl⟩
  | error e =>
    rw [hct] at h
    injection h with h
    subst h
    exact ⟨rfl, rfl, rfl⟩

/-- Witness for C3 at a concrete successful run. -/
theorem c3_crawl_result_counts_witness :
    (({ source := lstr "t", entities := [], total_entities := 0,
        success_count := 0, error_count := 0, errors := [] } :
          CrawlResult)).total_entities =
      (({ source := lstr "t", entities := [], total_entities := 0,
          success_count := 0, error_count := 0, errors := [] } :
            CrawlResult)).entities.length :=
  (c3_crawl_result_counts (α := Unit) true (.ok ()) (.ok (.pylist []))
    (fun _ => .error (lstr "p")) (lstr "t")
    { source := lstr "t", entities := [], total_entities := 0,
      success_count := 0, error_count := 0, errors := [] } rfl).1

/-- C6, counterexample: a run that acquires the session and completes
successfully leaves the session OPEN when `crawl()` returns (`crawl`
never calls `_close_session`; release happens only in `__aexit__`),
contradicting the claim that the session is released on every exit path
by the time `crawl()` returns. -/
theorem c6_session_left_open_counterexample :
    (BaseCrawler.crawl (α := Unit) false (.ok ()) (.ok (.pylist []))
        (fun _ => .error (lstr "p")) (lstr "t")).2 = true ∧
    (BaseCrawler.crawl (α := Unit) false (.ok ()) (.ok (.pylist []))
        (fun _ => .error (lstr "p")) (lstr "t")).1.isOk = true :=
  ⟨rfl, rfl⟩

/-- C6 (amended): `crawl()` itself never releases the transport session —
when `crawl` returns, the session is open exactly when it was already
open or its creation succeeded during the run; the only operation that
closes the session is `_close_session` (invoked from the async context
manager's `__aexit__`, outside `crawl`). -/
theorem c6_crawl_never_closes_session {α : Type} (sessionOpen : Bool)
    (cs : Except BaseCrawler.PyExc Unit)
    (fd : Except BaseCrawler.PyExc (BaseCrawler.RawData α))
    (parse : α → Except BaseCrawler.PyExc SanctionEntity) (source : PyStr) :
    (BaseCrawler.crawl sessionOpen cs fd parse source).2 =
      (sessionOpen || cs.isOk) ∧
    (∀ b, BaseCrawler.close_session b = false) :=
  ⟨rfl, fun _ => rfl⟩

/-- If every attempt fails with the same retryable exception, the retry
loop performs the first attempt plus every allowed retry and propagates
that exception. -/
theorem retry_run_const_err (f : Nat → Except BaseCrawler.ReqError Nat)
    (e : BaseCrawler.ReqError) (he : BaseCrawler.is_retryable e = true)
    (hf : ∀ k, f k = .error e) :
    ∀ n a, BaseCrawler.retry_run f a n = (.error e, a + n) := by
  intro n
  induction n with
  | zero =>
    intro a
    unfold BaseCrawler.retry_run
    rw [hf a]
    rfl
  | succ n ih =>
    intro a
    unfold BaseCrawler.retry_run
    rw [hf a]
    simp only [he, if_true, ih (a + 1)]
    congr 1
    omega

/-- C5, counterexample: a fetch that always yields HTTP 500 — a non-2xx
status other than 429 — is attempted 3 times (the full retry budget), not
1: `response.raise_for_status()` raises `aiohttp.ClientResponseError`,
a subclass of `aiohttp.ClientError`, which the tenacity predicate
retries.  The claim says such a status surfaces immediately without any
retry attempt. -/
theorem c5_status_500_is_retried :
    BaseCrawler.make_request true (fun _ => .status 500)
      = (.error (.clientResponse 500), 3) ∧ (3 : Nat) ≠ 1 :=
  ⟨rfl, by decide⟩

/-- C5 (amended): a response status >= 400 other than 429 raises a client
response error that the retry predicate also matches, so it is retried
with backoff up to the same fixed bound of 3 attempts before the last
failure is propagated (wrapped in tenacity's retry error), exactly like
network-level failures and HTTP 429; only exceptions outside
`aiohttp.ClientError`/`RateLimitError` — here the session-not-initialized
`CrawlerError` — surface after a single attempt. -/
theorem c5_http_errors_retried (code : Nat) (o : Nat → BaseCrawler.AttemptOutcome)
    (hc : 400 ≤ code) (hne : code ≠ 429) (ho : ∀ k, o k = .status code) :
    BaseCrawler.make_request true o = (.error (.clientResponse code), 3) ∧
    (∀ o2 : Nat → BaseCrawler.AttemptOutcome, (∀ k, o2 k = .netError) →
      BaseCrawler.make_request true o2 = (.error .clientNetwork, 3)) ∧
    (∀ o3 : Nat → BaseCrawler.AttemptOutcome, (∀ k, o3 k = .status 429) →
      BaseCrawler.make_request true o3 = (.error .rateLimit, 3)) ∧
    (∀ o4 : Nat → BaseCrawler.AttemptOutcome,
      BaseCrawler.make_request false o4 = (.error .crawlerError, 1)) := by
  refine ⟨?_, ?_, ?_, fun o4 => rfl⟩
  · have hf : ∀ k, BaseCrawler.request_once true (o k)
        = .error (.clientResponse code) := by
      intro k
      rw [ho k]
      unfold BaseCrawler.request_once
      simp [hne, hc]
    exact retry_run_const_err _ _ (by rfl) hf 2 1
  · intro o2 ho2
    have hf : ∀ k, BaseCrawler.request_once true (o2 k) = .error .clientNetwork := by
      intro k
      rw [ho2 k]
      rfl
    exact retry_run_const_err _ _ (by rfl) hf 2 1
  · intro o3 ho3
    have hf : ∀ k, BaseCrawler.request_once true (o3 k) = .error .rateLimit := by
      intro k
      rw [ho3 k]
      rfl
    exact retry_run_const_err _ _ (by rfl) hf 2 1

/-- Witness for the amended C5 at a concrete input: HTTP 503 everywhere
exhausts the 3-attempt budget. -/
theorem c5_http_errors_retried_witness :
    BaseCrawler.make_request true (fun _ => .status 503)
      = (.error (.clientResponse 503), 3) :=
  (c5_http_errors_retried 503 (fun _ => .status 503) (by norm_num) (by norm_num)
    (fun _ => rfl)).1

/-- C9: each of the four source date parsers maps the year-only string
`"2019"` to January 1, 2019 (every earlier format in its list fails on
this input, and `%Y` succeeds with the strptime defaults month=1,
day=1). -/
theorem c9_year_only_fallback :
    EUSanctionsCrawler.parse_date (lstr "2019") = some ⟨2019, 1, 1⟩ ∧
    OFACCrawler.parse_date (lstr "2019") = some ⟨2019, 1, 1⟩ ∧
    UNSanctionsCrawler.parse_date (lstr "2019") = some ⟨2019, 1, 1⟩ ∧
    UKTreasuryCrawler.parse_date (lstr "2019") = some ⟨2019, 1, 1⟩ := by
  decide

/-- C10: each of the four source parsers produces an entity whose name is
non-blank after trimming (the parsers fall back to the placeholder
`"Unknown"`) and whose id is the source prefix (`uk-`, `ofac-`, `un-`,
`eu-`) followed by the possibly empty or placeholder local id — hence
itself non-blank — so the absence of a name or id in the raw record never
by itself makes the Entity Validator reject the parsed entity: whenever
the configured source is non-empty, validation succeeds. -/
theorem c10_parsers_nonblank_name_id
    (src1 src2 src3 src4 : PyStr)
    (ruk : UKTreasuryCrawler.Row) (rofac : OFACCrawler.Raw)
    (run2 : UNSanctionsCrawler.Raw) (reu : EUSanctionsCrawler.Raw) :
    (pyStrip (UKTreasuryCrawler.parse_entity src1 ruk).name ≠ [] ∧
     (∃ t, (UKTreasuryCrawler.parse_entity src1 ruk).id = lstr "uk-" ++ t) ∧
     pyStrip (UKTreasuryCrawler.parse_entity src1 ruk).id ≠ [] ∧
     (src1 ≠ [] →
       BaseCrawler.validate_entity (UKTreasuryCrawler.parse_entity src1 ruk)
         = true)) ∧
    (pyStrip (OFACCrawler.parse_entity src2 rofac).name ≠ [] ∧
     (∃ t, (OFACCrawler.parse_entity src2 rofac).id = lstr "ofac-" ++ t) ∧
     pyStrip (OFACCrawler.parse_entity src2 rofac).id ≠ [] ∧
     (src2 ≠ [] →
       BaseCrawler.validate_entity (OFACCrawler.parse_entity src2 rofac)
         = true)) ∧
    (pyStrip (UNSanctionsCrawler.parse_entity src3 run2).name ≠ [] ∧
     (∃ t, (UNSanctionsCrawler.parse_entity src3 run2).id = lstr "un-" ++ t) ∧
     pyStrip (UNSanctionsCrawler.parse_entity src3 run2).id ≠ [] ∧
     (src3 ≠ [] →
       BaseCrawler.validate_entity (UNSanctionsCrawler.parse_entity src3 run2)
         = true)) ∧
    (pyStrip (EUSanctionsCrawler.parse_entity src4 reu).name ≠ [] ∧
     (∃ t, (EUSanctionsCrawler.parse_entity src4 reu).id = lstr "eu-" ++ t) ∧
     pyStrip (EUSanctionsCrawler.parse_entity src4 reu).id ≠ [] ∧
     (src4 ≠ [] →
       BaseCrawler.validate_entity (EUSanctionsCrawler.parse_entity src4 reu)
         = true)) := by
  have hnameUK : pyStrip (UKTreasuryCrawler.parse_entity src1 ruk).name ≠ [] :=
    clean_headD _ (uk_names_clean ruk)
  have hidUK : pyStrip (UKTreasuryCrawler.parse_entity src1 ruk).id ≠ [] :=
    pyStrip_append_left_ne_nil (lstr "uk-") _ 'u' (by decide) (by decide)
  have hnameOF : pyStrip (OFACCrawler.parse_entity src2 rofac).name ≠ [] :=
    ofac_primary_name_strip_ne_nil rofac
  have hidOF : pyStrip (OFACCrawler.parse_entity src2 rofac).id ≠ [] :=
    pyStrip_append_left_ne_nil (lstr "ofac-") _ 'o' (by decide) (by decide)
  have hcleanUN : ∀ x ∈ (match UNSanctionsCrawler.extract_names run2 with
      | [] => UNSanctionsCrawler.fallback_names run2
      | ns => ns), pyStrip x = x ∧ x ≠ [] := by
    cases hm : UNSanctionsCrawler.extract_names run2 with
    | nil => exact un_fallback_names_clean run2
    | cons a l =>
      intro x hx
      refine un_extract_names_clean run2 x ?_
      rw [hm]
      exact hx
  have hnameUN : pyStrip (UNSanctionsCrawler.parse_entity src3 run2).name ≠ [] :=
    clean_headD _ hcleanUN
  have hidUN : pyStrip (UNSanctionsCrawler.parse_entity src3 run2).id ≠ [] :=
    pyStrip_append_left_ne_nil (lstr "un-") _ 'u' (by decide) (by decide)
  have hnameEU : pyStrip (EUSanctionsCrawler.parse_entity src4 reu).name ≠ [] :=
    clean_headD _ (eu_extract_names_clean reu)
  have hidEU : pyStrip (EUSanctionsCrawler.parse_entity src4 reu).id ≠ [] :=
    pyStrip_append_left_ne_nil (lstr "eu-") _ 'e' (by decide) (by decide)
  refine ⟨⟨hnameUK, ⟨pyStrip ruk.groupId, rfl⟩, hidUK,
      fun hs => (validate_entity_eq_true_iff _).mpr ⟨hnameUK, hidUK, hs⟩⟩,
    ⟨hnameOF, ⟨OFACCrawler.entity_id rofac, rfl⟩, hidOF,
      fun hs => (validate_entity_eq_true_iff _).mpr ⟨hnameOF, hidOF, hs⟩⟩,
    ⟨hnameUN, ⟨UNSanctionsCrawler.entity_id run2, rfl⟩, hidUN,
      fun hs => (validate_entity_eq_true_iff _).mpr ⟨hnameUN, hidUN, hs⟩⟩,
    ⟨hnameEU, ⟨pyFormatOpt (EUSanctionsCrawler.entity_id reu), rfl⟩, hidEU,
      fun hs => (validate_entity_eq_true_iff _).mpr ⟨hnameEU, hidEU, hs⟩⟩⟩

/-- Witness for C10 at the fully empty raw records and the default
configured sources: each parser yields a validator-accepted entity. -/
theorem c10_parsers_nonblank_name_id_witness :
    BaseCrawler.validate_entity
        (UKTreasuryCrawler.parse_entity (lstr "uk-treasury") {}) = true ∧
    BaseCrawler.validate_entity
        (OFACCrawler.parse_entity (lstr "ofac") {}) = true ∧
    BaseCrawler.validate_entity
        (UNSanctionsCrawler.parse_entity (lstr "un-sanctions") {}) = true ∧
    BaseCrawler.validate_entity
        (EUSanctionsCrawler.parse_entity (lstr "eu-sanctions") {}) = true := by
  have h := c10_parsers_nonblank_name_id (lstr "uk-treasury") (lstr "ofac")
    (lstr "un-sanctions") (lstr "eu-sanctions") {} {} {} {}
  exact ⟨h.1.2.2.2 (by decide), h.2.1.2.2.2 (by decide),
    h.2.2.1.2.2.2 (by decide), h.2.2.2.2.2.2 (by decide)⟩

end SanctionsWatch
